import Mathlib

/-!
Verification of the authentication, rate-limiting and formatting layer of
the fub-followup-assistant backend (apps/api/utils.py, apps/api/auth.py,
apps/api/routes/auth.py), as a shallow embedding in Lean.

Time is modelled in integer seconds; the backing store of the rate limiter
(a Redis sorted set keyed by timestamp) is modelled as a list of integer
timestamps; a store round-trip that may fail is modelled as an
`Except StoreErr` value.
-/

/-- Error raised by the backing store (Redis) round-trip. -/
inductive StoreErr where
  | down
deriving DecidableEq, Repr

/-- The sorted-set member removal `zremrangebyscore key 0 window_start`:
keeps only timestamps outside the inclusive score range [0, window_start],
where window_start = now - 60 * window_minutes (utils.py lines 52-55). -/
def pruneWindow (ts : List Int) (now : Int) (window_minutes : Nat) : List Int :=
  let ws : Int := now - 60 * (window_minutes : Int)
  ts.filter (fun t => !(0 ≤ t && t ≤ ws))

/-- The member set after `zadd key {now: now}`: adds `now` as a member,
leaving the set unchanged when the member already exists. -/
def zaddNow (ts : List Int) (now : Int) : List Int :=
  if now ∈ ts then ts else ts ++ [now]

/-- Embedding of `check_rate_limit` (utils.py lines 35-68) on a successful
store round-trip: prune expired members, count the remainder, add the
current timestamp unconditionally, and report whether the pre-add count is
below `max_requests`.  Returns the decision and the new member set. -/
def check_rate_limit_core (ts : List Int) (now : Int) (max_requests : Nat)
    (window_minutes : Nat) : Bool × List Int :=
  let pruned := pruneWindow ts now window_minutes
  let current_requests := pruned.length
  (decide (current_requests < max_requests), zaddNow pruned now)

/-- Embedding of `check_rate_limit` including its `except Exception` arm
(utils.py lines 65-68): when the store round-trip fails, the function logs
and returns `true` (fail open) without touching the store. -/
def check_rate_limit (store : Except StoreErr (List Int)) (now : Int)
    (max_requests : Nat) (window_minutes : Nat) :
    Bool × Except StoreErr (List Int) :=
  match store with
  | .error e => (true, .error e)
  | .ok ts =>
      let r := check_rate_limit_core ts now max_requests window_minutes
      (r.1, .ok r.2)

/-- Embedding of `get_cached_lead_data` (utils.py lines 71-91): the cached
value fetched from the store, or `none` when absent; any store exception is
caught, logged, and mapped to `none`. -/
def get_cached_lead_data (fetch : Except StoreErr (Option String)) :
    Option String :=
  match fetch with
  | .error _ => none
  | .ok d => d

example : check_rate_limit_core [100] 110 1 1 = (false, [100, 110]) := by decide
example : check_rate_limit_core [] 110 1 1 = (true, [110]) := by decide
example : check_rate_limit_core [40, 100] 110 1 1 = (false, [100, 110]) := by decide

/-! ## HMAC signature verification (auth.py lines 26-46)

`hashlib`/`hmac` are Python standard-library primitives external to this
repository, so the hex-encoded HMAC-SHA256 digest is a parameter
`hmacHex : String → String → String` (secret, then message).  The
configured shared secret `settings.fub_embed_secret` is an `Option String`:
`none` models the attribute being missing, which makes the body of the
`try` raise and the `except` arm return `false`. -/

/-- Embedding of `verify_hmac_signature`: compute the expected digest of
`context` under the shared secret and compare it to `signature` with
`hmac.compare_digest` (string equality with timing hidden); on any internal
error, such as a missing secret, return `false` instead of raising. -/
def verify_hmac_signature (hmacHex : String → String → String)
    (fub_embed_secret : Option String) (context signature : String) : Bool :=
  match fub_embed_secret with
  | none => false
  | some secret => signature == hmacHex secret context

/-! ## Session tokens (auth.py lines 49-121, routes/auth.py lines 190-227)

The `python-jose` JWT codec is external library code; a token is modelled
as its decoded payload plus the secret it was signed with, and `jose_decode`
checks the signature (secret equality) and the registered `exp` claim
against the current time exactly as `jwt.decode` does: the token is
expired precisely when `exp` is in the strict past. -/

/-- Decoded JWT payload as built by `create_jwt_token`; `Option` fields
model claims that may be absent from a foreign token. -/
structure JwtPayload where
  account_id : Option Int
  fub_account_id : Option String
  exp : Option Int
deriving DecidableEq, Repr

/-- A signed token: payload plus the signing secret. -/
structure JwtToken where
  payload : JwtPayload
  signedWith : String
deriving DecidableEq, Repr

/-- HTTP-level failure carried by a raised `HTTPException`. -/
structure HttpError where
  status_code : Nat
  detail : String
deriving DecidableEq, Repr

inductive JWTError where
  | invalidSignature
  | expiredSignature
deriving DecidableEq, Repr

/-- Embedding of `create_jwt_token` (auth.py lines 49-71): expiry is
`now + expires_delta` when a delta is given, else `now + 24h`; the payload
carries both account identifiers, signed with `jwt_secret`. -/
def create_jwt_token (jwt_secret : String) (account_id : Int)
    (fub_account_id : String) (expires_delta : Option Int) (now : Int) :
    JwtToken :=
  let expire := now + expires_delta.getD 86400
  { payload := { account_id := some account_id,
                 fub_account_id := some fub_account_id,
                 exp := some expire },
    signedWith := jwt_secret }

/-- Model of `jose.jwt.decode`: fails when the signature does not validate
against the secret, or when the `exp` claim is strictly in the past. -/
def jose_decode (token : JwtToken) (jwt_secret : String) (now : Int) :
    Except JWTError JwtPayload :=
  if token.signedWith ≠ jwt_secret then .error .invalidSignature
  else
    match token.payload.exp with
    | some e => if e < now then .error .expiredSignature else .ok token.payload
    | none => .ok token.payload

/-- Embedding of `verify_jwt_token` (auth.py lines 74-102): decode, then
reject with 401 when either identifier claim is absent; any `JWTError`
is mapped to a 401. -/
def verify_jwt_token (jwt_secret : String) (token : JwtToken) (now : Int) :
    Except HttpError JwtPayload :=
  match jose_decode token jwt_secret now with
  | .error _ => .error ⟨401, "Could not validate credentials"⟩
  | .ok payload =>
      if payload.account_id = none ∨ payload.fub_account_id = none then
        .error ⟨401, "Invalid token payload"⟩
      else .ok payload

/-- Embedding of `should_refresh_token` (auth.py lines 105-121): a missing
or falsy `exp` claim forces a refresh; otherwise refresh exactly when less
than 15 minutes of lifetime remain. -/
def should_refresh_token (token_payload : JwtPayload) (now : Int) : Bool :=
  match token_payload.exp with
  | none => true
  | some e => if e = 0 then true else decide (e - now < 900)

/-- Account row fields used by the refresh route; `id` is optional until
the store assigns it. -/
structure AccountRec where
  id : Option Int
  fub_account_id : String
deriving DecidableEq, Repr

/-- Embedding of the `GET /auth/refresh` handler `refresh_token`
(routes/auth.py lines 190-227): after `get_current_account` has
authenticated the bearer token, the handler unconditionally mints a fresh
24-hour token for the account; the decoded payload of the presented token
is never consulted and `should_refresh_token` is never called. -/
def refresh_token_route (jwt_secret : String) (account : AccountRec)
    (now : Int) : Except HttpError JwtToken :=
  match account.id with
  | none => .error ⟨500, "Token refresh failed"⟩
  | some aid =>
      .ok (create_jwt_token jwt_secret aid account.fub_account_id
            (some 86400) now)

/-! ## CRM proxy with one-shot refresh (auth.py lines 124-211)

The downstream HTTP client and the OAuth refresh endpoint are external
collaborators: the client is a function from the index of the request made
within this call (0 for attempt 1, 1 for attempt 2) to its outcome, and the
refresher is a function from the presented refresh token to its outcome.
The embedding returns the call result together with the number of
downstream requests issued and the number of refresher invocations, so the
retry-budget claims are about observable counts. -/

/-- Outcome of one downstream HTTP request: a transport failure
(`httpx.RequestError`) or a status code with a body. -/
inductive HttpOutcome where
  | requestError
  | response (status_code : Nat) (body : String)
deriving DecidableEq, Repr

/-- `AuthenticationError` raised by the proxy and the refresher. -/
inductive AuthErr where
  | authenticationError (msg : String)
deriving DecidableEq, Repr

/-- Outcome of `refresh_fub_tokens` (auth.py lines 124-157): a new token
pair, or `AuthenticationError` when the OAuth endpoint rejects the token
or is unreachable. -/
abbrev RefreshOutcome := Except AuthErr (String × String)

/-- Embedding of `make_fub_api_request` (auth.py lines 160-211).
Attempt 1 with the current access token; on 401, invoke the refresher once
and retry once with the new pair, accepting only status 200; on a first
status that is neither 401 nor 200, or on any transport error, raise
`AuthenticationError`.  Returns `(result, downstream_calls, refresh_calls)`
where a successful result is `(body, access_token, refresh_token)`. -/
def make_fub_api_request (client : Nat → HttpOutcome)
    (refresher : String → RefreshOutcome)
    (access_token refresh_tok : String) :
    Except AuthErr (String × String × String) × Nat × Nat :=
  match client 0 with
  | .requestError => (.error (.authenticationError "API request failed"), 1, 0)
  | .response status1 body1 =>
      if status1 = 401 then
        match refresher refresh_tok with
        | .error e => (.error e, 1, 1)
        | .ok (newAccess, newRefresh) =>
            match client 1 with
            | .requestError =>
                (.error (.authenticationError "API request failed"), 2, 1)
            | .response status2 body2 =>
                if status2 ≠ 200 then
                  (.error (.authenticationError "API request failed"), 2, 1)
                else (.ok (body2, newAccess, newRefresh), 2, 1)
      else if status1 ≠ 200 then
        (.error (.authenticationError "API request failed"), 1, 0)
      else (.ok (body1, access_token, refresh_tok), 1, 0)

/-! ## Chat response formatting (utils.py lines 114-139)

Strings are modelled as lists of characters so that splitting, stripping
and truncation are by plain structural recursion mirroring Python's
`str.split`, `str.strip`, slicing and `join`. -/

/-- Python `response.split` on a newline: greedy split at every newline
character, keeping empty pieces. -/
def splitLines : List Char → List (List Char)
  | [] => [[]]
  | c :: rest =>
      if c = '\n' then [] :: splitLines rest
      else
        match splitLines rest with
        | [] => [[c]]
        | l :: ls => (c :: l) :: ls

/-- Python `str.strip` with no argument: drop whitespace from both ends. -/
def pyStrip (l : List Char) : List Char :=
  (l.dropWhile Char.isWhitespace).reverse.dropWhile Char.isWhitespace |>.reverse

/-- Whether a line begins with a bullet character, as tested by
`line.startswith` in the source. -/
def startsWithBullet : List Char → Bool
  | [] => false
  | c :: _ => c = '•' || c = '-'

/-- The per-line step of the formatter: prefix a bullet to a line that has
none. -/
def bulletize (l : List Char) : List Char :=
  if startsWithBullet l then l else '•' :: ' ' :: l

/-- Python `'\n'.join`. -/
def joinLines : List (List Char) → List Char
  | [] => []
  | [l] => l
  | l :: ls => l ++ '\n' :: joinLines ls

/-- Embedding of `format_chat_response` (utils.py lines 114-139): strip
each line, keep the non-empty ones, bulletize the first three, join with
newlines, and when the result exceeds 400 characters keep its first 397
characters followed by three dots. -/
def format_chat_response (response : List Char) : List Char :=
  let lines := ((splitLines response).map pyStrip).filter (fun l => l ≠ [])
  let formatted_lines := (lines.take 3).map bulletize
  let result := joinLines formatted_lines
  if 400 < result.length then result.take 397 ++ ['.', '.', '.'] else result

example :
    format_chat_response "Call the lead\nSend follow-up email".data =
      "• Call the lead\n• Send follow-up email".data := by decide
example :
    format_chat_response "• Call\n- Email\nShow".data =
      "• Call\n- Email\n• Show".data := by decide
example : format_chat_response "   \n  \n   ".data = [] := by decide

/-! ## Claims -/

/-- C1, counterexample.  The claim states that a denied `check_rate_limit`
call leaves the recorded timestamp set unchanged.  Concretely: with one
recorded timestamp 100 inside the window, `max_requests = 1`, and the
current time 110, the call denies, yet the resulting member set is
[100, 110], not [100]: the denied attempt was recorded. -/
theorem check_rate_limit_denied_records_counterexample :
    (check_rate_limit_core [100] 110 1 1).1 = false ∧
    (check_rate_limit_core [100] 110 1 1).2 ≠ [100] ∧
    110 ∈ (check_rate_limit_core [100] 110 1 1).2 := by
  refine ⟨by decide, by decide, by decide⟩

/-- C1, amended.  `check_rate_limit` decides from the count of in-window
timestamps taken before any insertion, but records the current timestamp
unconditionally: after every call, denied or not, `now` is a member of the
key's timestamp set. -/
theorem check_rate_limit_always_records (ts : List Int) (now : Int)
    (max_requests window_minutes : Nat) :
    (check_rate_limit_core ts now max_requests window_minutes).1 =
      decide ((pruneWindow ts now window_minutes).length < max_requests) ∧
    now ∈ (check_rate_limit_core ts now max_requests window_minutes).2 := by
  refine ⟨rfl, ?_⟩
  show now ∈ zaddNow (pruneWindow ts now window_minutes) now
  unfold zaddNow
  split
  · assumption
  · simp

/-- C8, counterexample.  The claim asserts the rate limiter is the only
component that swallows its backing-store errors; but
`get_cached_lead_data` maps a store failure to the same non-raising result
(`none`) as an ordinary cache miss, so the lead-data cache also swallows
its backing-store errors. -/
theorem cache_also_swallows_store_errors :
    get_cached_lead_data (.error .down) = get_cached_lead_data (.ok none) ∧
    get_cached_lead_data (.error .down) = none := ⟨rfl, rfl⟩

/-- C8, amended.  `check_rate_limit` never raises (it is a total function
into `Bool` in this embedding) and fails open: on any backing-store
failure it permits the request and leaves the store untouched.  It is not,
however, the only component swallowing backing-store errors: the lead-data
cache does too. -/
theorem check_rate_limit_fails_open (e : StoreErr) (now : Int)
    (max_requests window_minutes : Nat) :
    (check_rate_limit (.error e) now max_requests window_minutes).1 = true ∧
    (check_rate_limit (.error e) now max_requests window_minutes).2 = .error e ∧
    get_cached_lead_data (.error e) = none := ⟨rfl, rfl, rfl⟩

/-- C7.  For a payload carrying a (positive) expiry timestamp,
`should_refresh_token` returns true exactly when strictly less than 15
minutes (900 seconds) of lifetime remain; at exactly 900 seconds remaining
it returns false, at 899 it returns true. -/
theorem should_refresh_token_iff (a : Option Int) (f : Option String)
    (e now : Int) (hpos : 0 < e) :
    (should_refresh_token ⟨a, f, some e⟩ now = true ↔ e - now < 900) ∧
    (e - now = 900 → should_refresh_token ⟨a, f, some e⟩ now = false) ∧
    (e - now = 899 → should_refresh_token ⟨a, f, some e⟩ now = true) := by
  have he : e ≠ 0 := by omega
  refine ⟨?_, ?_, ?_⟩
  · simp [should_refresh_token, he]
  · intro h
    simp only [should_refresh_token, he, if_false, decide_eq_false_iff_not]
    omega
  · intro h
    simp only [should_refresh_token, he, if_false, decide_eq_true_eq]
    omega

/-- C7, witness at a concrete boundary input: expiry 1000, current time
100, exactly 900 seconds remaining, no refresh. -/
theorem should_refresh_token_iff_witness :
    (0 : Int) < 1000 ∧
    should_refresh_token ⟨some 1, some "42", some 1000⟩ 100 = false :=
  ⟨by decide,
   (should_refresh_token_iff (some 1) (some "42") 1000 100 (by decide)).2.1
     (by decide)⟩

/-- C5.  With the shared secret configured, `verify_hmac_signature` accepts
exactly the hex HMAC-SHA256 digest of the context under that secret and
rejects every other signature string (hence any mutation of the signature,
and any mutation of the context whose digest differs); with the secret
missing it returns false rather than raising. -/
theorem verify_hmac_signature_correct (hmacHex : String → String → String)
    (secret context sig ctx2 : String) :
    verify_hmac_signature hmacHex (some secret) context
      (hmacHex secret context) = true ∧
    (sig ≠ hmacHex secret context →
      verify_hmac_signature hmacHex (some secret) context sig = false) ∧
    (hmacHex secret ctx2 ≠ hmacHex secret context →
      verify_hmac_signature hmacHex (some secret) ctx2
        (hmacHex secret context) = false) ∧
    verify_hmac_signature hmacHex none context sig = false := by
  refine ⟨?_, ?_, ?_, rfl⟩
  · simp [verify_hmac_signature]
  · intro h
    simpa [verify_hmac_signature] using h
  · intro h
    simp [verify_hmac_signature]
    exact fun hc => h hc.symm

/-- C5, witness with a concrete (non-cryptographic) digest function
`fun s c => s ++ c`: the digest of "ctx" under secret "k" is "kctx", which
verifies, while the differing signature "bad" is rejected. -/
theorem verify_hmac_signature_correct_witness :
    ("bad" : String) ≠ "k" ++ "ctx" ∧
    verify_hmac_signature (fun s c => s ++ c) (some "k") "ctx"
      ("k" ++ "ctx") = true ∧
    verify_hmac_signature (fun s c => s ++ c) (some "k") "ctx" "bad" = false :=
  ⟨by decide,
   (verify_hmac_signature_correct (fun s c => s ++ c) "k" "ctx" "bad" "c").1,
   (verify_hmac_signature_correct (fun s c => s ++ c) "k" "ctx" "bad" "c").2.1
     (by decide)⟩

/-- C6.  Issue-then-validate round trip: validating a freshly issued token
(default 24h lifetime) at issuance time yields the payload carrying
exactly the two account identifiers it was issued for; once the current
time strictly exceeds the expiry timestamp, validation fails with a 401. -/
theorem jwt_roundtrip (jwt_secret : String) (a : Int) (e : String)
    (now later : Int) (hlate : now + 86400 < later) :
    verify_jwt_token jwt_secret (create_jwt_token jwt_secret a e none now)
      now =
      .ok { account_id := some a, fub_account_id := some e,
            exp := some (now + 86400) } ∧
    verify_jwt_token jwt_secret (create_jwt_token jwt_secret a e none now)
      later =
      .error ⟨401, "Could not validate credentials"⟩ := by
  constructor
  · have hne : ¬ now + 86400 < now := by omega
    simp [verify_jwt_token, jose_decode, create_jwt_token, hne]
  · have hlt : now + 86400 < later := hlate
    simp [verify_jwt_token, jose_decode, create_jwt_token, hlt]

/-- C6, witness: secret "k", identifiers 7 and "42", issued at time 0,
validated at 0 and again at 90000 seconds (past the 86400-second expiry). -/
theorem jwt_roundtrip_witness :
    (0 : Int) + 86400 < 90000 ∧
    verify_jwt_token "k" (create_jwt_token "k" 7 "42" none 0) 0 =
      .ok { account_id := some 7, fub_account_id := some "42",
            exp := some 86400 } ∧
    verify_jwt_token "k" (create_jwt_token "k" 7 "42" none 0) 90000 =
      .error ⟨401, "Could not validate credentials"⟩ := by
  have h := jwt_roundtrip "k" 7 "42" 0 90000 (by decide)
  exact ⟨by decide, by simpa using h.1, h.2⟩

/-- C9.  A token whose signature validates and whose expiry has not passed
is still rejected with a 401 when the decoded payload misses either
identifier claim, and accepted exactly when both are present. -/
theorem jwt_requires_both_identifiers (jwt_secret : String) (a : Option Int)
    (f : Option String) (x now : Int) (hexp : ¬ x < now) :
    ((a = none ∨ f = none) →
      verify_jwt_token jwt_secret ⟨⟨a, f, some x⟩, jwt_secret⟩ now =
        .error ⟨401, "Invalid token payload"⟩) ∧
    (∀ ai fi, a = some ai → f = some fi →
      verify_jwt_token jwt_secret ⟨⟨a, f, some x⟩, jwt_secret⟩ now =
        .ok ⟨a, f, some x⟩) := by
  constructor
  · intro hmiss
    simp [verify_jwt_token, jose_decode, hexp, hmiss]
  · intro ai fi ha hf
    subst ha hf
    simp [verify_jwt_token, jose_decode, hexp]

/-- C9, witness: a correctly signed, unexpired token missing `account_id`
is rejected with 401; the same token with both identifiers is accepted. -/
theorem jwt_requires_both_identifiers_witness :
    ¬ (100 : Int) < 0 ∧
    verify_jwt_token "k" ⟨⟨none, some "42", some 100⟩, "k"⟩ 0 =
      .error ⟨401, "Invalid token payload"⟩ ∧
    verify_jwt_token "k" ⟨⟨some 7, some "42", some 100⟩, "k"⟩ 0 =
      .ok ⟨some 7, some "42", some 100⟩ :=
  ⟨by decide,
   (jwt_requires_both_identifiers "k" none (some "42") 100 0 (by decide)).1
     (Or.inl rfl),
   (jwt_requires_both_identifiers "k" (some 7) (some "42") 100 0
     (by decide)).2 7 "42" rfl rfl⟩

/-- C2, code evaluation at the failing input.  A session token issued at
time 0 with a 24-hour lifetime is presented to the refresh route at time
1000 (over 23 hours remaining, so not near expiry:
`should_refresh_token` is false).  The route nonetheless returns a newly
minted token whose expiry differs from the presented one — it never
returns the current token. -/
theorem refresh_route_always_mints :
    should_refresh_token (create_jwt_token "k" 1 "42" (some 86400) 0).payload
      1000 = false ∧
    refresh_token_route "k" ⟨some 1, "42"⟩ 1000 =
      .ok (create_jwt_token "k" 1 "42" (some 86400) 1000) ∧
    (create_jwt_token "k" 1 "42" (some 86400) 1000).payload.exp ≠
      (create_jwt_token "k" 1 "42" (some 86400) 0).payload.exp := by
  refine ⟨by decide, rfl, by decide⟩

/-- C3.  Retry budget of the CRM proxy.  When attempt 1 returns 401 and
the refresher succeeds: if attempt 2 returns 200, the call succeeds with
attempt 2's body and the refreshed token pair after exactly two downstream
requests and exactly one refresh; if attempt 2 returns 401 again, the call
fails with `AuthenticationError`, still after exactly two downstream
requests and one refresh — no third request, no second refresh. -/
theorem fub_proxy_retry_budget (client : Nat → HttpOutcome)
    (refresher : String → RefreshOutcome)
    (access rtok b1 b2 na nr : String)
    (h1 : client 0 = .response 401 b1)
    (hr : refresher rtok = .ok (na, nr)) :
    (client 1 = .response 200 b2 →
      make_fub_api_request client refresher access rtok =
        (.ok (b2, na, nr), 2, 1)) ∧
    (client 1 = .response 401 b2 →
      make_fub_api_request client refresher access rtok =
        (.error (.authenticationError "API request failed"), 2, 1)) := by
  constructor
  · intro h2
    simp [make_fub_api_request, h1, hr, h2]
  · intro h2
    simp [make_fub_api_request, h1, hr, h2]

/-- C3, witness with concrete clients: one that answers 401 then 200, and
one that answers 401 twice, against a refresher yielding ("na", "nr"). -/
theorem fub_proxy_retry_budget_witness :
    make_fub_api_request
      (fun n => if n = 0 then .response 401 "e" else .response 200 "ok")
      (fun _ => .ok ("na", "nr")) "a" "r" = (.ok ("ok", "na", "nr"), 2, 1) ∧
    make_fub_api_request (fun _ => .response 401 "e")
      (fun _ => .ok ("na", "nr")) "a" "r" =
      (.error (.authenticationError "API request failed"), 2, 1) :=
  ⟨(fub_proxy_retry_budget
      (fun n => if n = 0 then .response 401 "e" else .response 200 "ok")
      (fun _ => .ok ("na", "nr")) "a" "r" "e" "ok" "na" "nr" rfl rfl).1 rfl,
   (fub_proxy_retry_budget (fun _ => .response 401 "e")
      (fun _ => .ok ("na", "nr")) "a" "r" "e" "e" "na" "nr" rfl rfl).2 rfl⟩

/-- C4, counterexample.  The claim says any 2xx first-attempt status
succeeds; but 204 is a 2xx status and the proxy, which accepts only
exactly 200, raises `AuthenticationError` on it without retrying. -/
theorem fub_proxy_rejects_204 :
    (200 ≤ 204 ∧ 204 < 300) ∧
    make_fub_api_request (fun _ => .response 204 "created")
      (fun _ => .ok ("na", "nr")) "a" "r" =
      (.error (.authenticationError "API request failed"), 1, 0) := by
  refine ⟨by decide, rfl⟩

/-- C4, amended.  A first-attempt status of exactly 200 succeeds with the
response body and the original token pair unchanged, after one downstream
request and no refresh; any first-attempt status other than 200 and 401
(including other 2xx codes) fails with `AuthenticationError` without any
retry or refresh. -/
theorem fub_proxy_first_attempt (client : Nat → HttpOutcome)
    (refresher : String → RefreshOutcome) (access rtok body : String)
    (s : Nat) :
    (client 0 = .response 200 body →
      make_fub_api_request client refresher access rtok =
        (.ok (body, access, rtok), 1, 0)) ∧
    (client 0 = .response s body → s ≠ 200 → s ≠ 401 →
      make_fub_api_request client refresher access rtok =
        (.error (.authenticationError "API request failed"), 1, 0)) := by
  constructor
  · intro h0
    simp [make_fub_api_request, h0]
  · intro h0 hs200 hs401
    simp [make_fub_api_request, h0, hs200, hs401]

/-- C4, amended, witness: a client answering 200 succeeds with the original
tokens; a client answering 500 fails after one request and no refresh. -/
theorem fub_proxy_first_attempt_witness :
    make_fub_api_request (fun _ => .response 200 "body")
      (fun _ => .ok ("na", "nr")) "a" "r" = (.ok ("body", "a", "r"), 1, 0) ∧
    make_fub_api_request (fun _ => .response 500 "oops")
      (fun _ => .ok ("na", "nr")) "a" "r" =
      (.error (.authenticationError "API request failed"), 1, 0) :=
  ⟨(fub_proxy_first_attempt (fun _ => .response 200 "body")
      (fun _ => .ok ("na", "nr")) "a" "r" "body" 0).1 rfl,
   (fub_proxy_first_attempt (fun _ => .response 500 "oops")
      (fun _ => .ok ("na", "nr")) "a" "r" "oops" 500).2 rfl
      (by decide) (by decide)⟩

/-! ## Structure of formatted chat responses -/

/-- The bulletized kept lines of `format_chat_response`, before joining. -/
def fcrLines (response : List Char) : List (List Char) :=
  ((((splitLines response).map pyStrip).filter (fun l => l ≠ [])).take 3).map
    bulletize

theorem mem_splitLines_no_newline (s : List Char) :
    ∀ l ∈ splitLines s, '\n' ∉ l := by
  induction s with
  | nil =>
    intro l hl
    simp [splitLines] at hl
    simp [hl]
  | cons c rest ih =>
    intro l hl
    by_cases hc : c = '\n'
    · subst hc
      simp [splitLines] at hl
      rcases hl with rfl | h
      · simp
      · exact ih l h
    · simp only [splitLines, if_neg hc] at hl
      cases hsplit : splitLines rest with
      | nil =>
        rw [hsplit] at hl
        simp at hl
        subst hl
        intro hmem
        simp at hmem
        exact hc hmem.symm
      | cons hd tl =>
        rw [hsplit] at hl
        simp only [List.mem_cons] at hl
        rcases hl with rfl | h
        · intro hmem
          rcases List.mem_cons.1 hmem with h1 | h2
          · exact hc h1.symm
          · exact ih hd (by rw [hsplit]; exact List.mem_cons_self hd tl) h2
        · exact ih l (by rw [hsplit]; exact List.mem_cons_of_mem hd h)

theorem splitLines_length (s : List Char) :
    (splitLines s).length = s.count '\n' + 1 := by
  induction s with
  | nil => simp [splitLines]
  | cons c rest ih =>
    by_cases hc : c = '\n'
    · subst hc
      simp [splitLines, List.count_cons, ih]
    · simp only [splitLines, if_neg hc]
      cases hsplit : splitLines rest with
      | nil =>
        rw [hsplit] at ih
        simp at ih
      | cons hd tl =>
        rw [hsplit] at ih
        simp only [List.length_cons] at ih ⊢
        have hcc : (c == '\n') = false := by
          simp [hc]
        simp [List.count_cons, hcc]
        omega

theorem joinLines_count_nl (ls : List (List Char)) :
    (∀ l ∈ ls, '\n' ∉ l) → (joinLines ls).count '\n' ≤ ls.length - 1 := by
  induction ls with
  | nil =>
    intro _
    simp [joinLines]
  | cons l ls ih =>
    intro h
    have h0 : l.count '\n' = 0 :=
      List.count_eq_zero.2 (h l (List.mem_cons_self _ _))
    cases ls with
    | nil => simp [joinLines, h0]
    | cons l2 ls2 =>
      have ih2 := ih (fun x hx => h x (List.mem_cons_of_mem _ hx))
      simp only [joinLines, List.count_append, List.count_cons,
        List.length_cons] at ih2 ⊢
      simp [h0]
      omega

theorem startsWithBullet_bulletize (l : List Char) :
    startsWithBullet (bulletize l) = true := by
  unfold bulletize
  split
  · assumption
  · rfl

theorem no_nl_bulletize (l : List Char) (h : '\n' ∉ l) :
    '\n' ∉ bulletize l := by
  unfold bulletize
  split
  · exact h
  · intro hmem
    simp only [List.mem_cons] at hmem
    rcases hmem with h1 | h1 | h1
    · exact absurd h1 (by decide)
    · exact absurd h1 (by decide)
    · exact h h1

theorem pyStrip_subset (l : List Char) : pyStrip l ⊆ l := by
  intro x hx
  unfold pyStrip at hx
  rw [List.mem_reverse] at hx
  have hx2 := (List.dropWhile_sublist _).subset hx
  rw [List.mem_reverse] at hx2
  exact (List.dropWhile_sublist _).subset hx2

set_option maxRecDepth 10000 in
/-- C10, counterexample.  The claim asserts every line of the returned
string begins with a bullet.  For an input whose first kept line is 396
characters long, the 397-character truncation point falls directly after
the newline, so the returned string's final line is exactly the appended
three dots, which begins with no bullet. -/
theorem format_chat_response_unbulleted_line :
    ((splitLines (format_chat_response
        ('•' :: (List.replicate 395 'A' ++ '\n' :: "abcd".data)))).all
      startsWithBullet) = false := by decide

/-- C10, amended.  `format_chat_response` keeps the first 3 non-empty
stripped lines, prefixes a bullet to any kept line lacking one, joins with
newlines, and truncates a joined result longer than 400 characters to its
first 397 characters plus three dots.  The result is at most 400
characters and at most 3 lines, and every kept line begins with a bullet
before joining — though truncation can leave a final displayed line that
does not. -/
theorem format_chat_response_shape (response : List Char) :
    (format_chat_response response).length ≤ 400 ∧
    (splitLines (format_chat_response response)).length ≤ 3 ∧
    ∀ l ∈ fcrLines response, startsWithBullet l = true := by
  have heq : format_chat_response response =
      if 400 < (joinLines (fcrLines response)).length then
        (joinLines (fcrLines response)).take 397 ++ ['.', '.', '.']
      else joinLines (fcrLines response) := rfl
  have hlen3 : (fcrLines response).length ≤ 3 := by
    unfold fcrLines
    rw [List.length_map, List.length_take]
    exact min_le_left _ _
  have hnl : ∀ l ∈ fcrLines response, '\n' ∉ l := by
    intro l hl
    unfold fcrLines at hl
    rcases List.mem_map.1 hl with ⟨m, hm, rfl⟩
    refine no_nl_bulletize m ?_
    have hmL := (List.take_sublist 3 _).subset hm
    have hmf := List.mem_of_mem_filter hmL
    rcases List.mem_map.1 hmf with ⟨u, hu, rfl⟩
    intro hmem
    exact mem_splitLines_no_newline response u hu (pyStrip_subset u hmem)
  have hcnt : (joinLines (fcrLines response)).count '\n' ≤ 2 := by
    have h1 := joinLines_count_nl (fcrLines response) hnl
    omega
  refine ⟨?_, ?_, ?_⟩
  · rw [heq]
    split
    · rw [List.length_append]
      have h2 : ((joinLines (fcrLines response)).take 397).length ≤ 397 := by
        rw [List.length_take]
        exact min_le_left _ _
      simp only [List.length_cons, List.length_nil]
      omega
    · rename_i h
      omega
  · rw [heq]
    split
    · rw [splitLines_length, List.count_append]
      have h1 : ((joinLines (fcrLines response)).take 397).count '\n' ≤
          (joinLines (fcrLines response)).count '\n' :=
        (List.take_sublist _ _).count_le _
      have h2 : (['.', '.', '.'] : List Char).count '\n' = 0 := by decide
      omega
    · rw [splitLines_length]
      omega
  · intro l hl
    unfold fcrLines at hl
    rcases List.mem_map.1 hl with ⟨m, _, rfl⟩
    exact startsWithBullet_bulletize m

/-- C10, amended, witness: on the two-line input "Call\nEmail" the result
is within bounds and the kept line "• Call" of that input starts with a
bullet. -/
theorem format_chat_response_shape_witness :
    (format_chat_response "Call\nEmail".data).length ≤ 400 ∧
    "• Call".data ∈ fcrLines "Call\nEmail".data ∧
    startsWithBullet "• Call".data = true :=
  ⟨(format_chat_response_shape "Call\nEmail".data).1,
   by decide,
   (format_chat_response_shape "Call\nEmail".data).2.2 "• Call".data
     (by decide)⟩
